import Mathlib

/-!
Shallow embedding of `src/scoring.py` from dylan-bone/grad-job-scraper.

The scorer classifies job postings for early-career suitability.  Python
strings become Lean `String`, Python floats (which here only ever hold
small decimal values parsed from digit strings) become `Rat`, and the
regular-expression searches of `_extract_years` become deterministic
character-list matchers (the patterns involved never need backtracking:
every greedy sub-match is followed by a requirement that its continuation
cannot satisfy, so maximal-munch matching agrees with the Python `re` module).
-/

/-- Holds when `needle` is a leading segment of `hay` (char lists). -/
def startsWithL : List Char → List Char → Bool
  | [], _ => true
  | _ :: _, [] => false
  | a :: as, b :: bs => a == b && startsWithL as bs

/-- Holds when `needle` occurs as a contiguous substring of `hay`; embeds
the Python containment test `n in haystack`. -/
def containsSubL (needle : List Char) : List Char → Bool
  | [] => needle.isEmpty
  | c :: tl => startsWithL needle (c :: tl) || containsSubL needle tl

/-- Python `needle in hay` on strings. -/
def inStr (needle hay : String) : Bool :=
  containsSubL needle.data hay.data

/-- Embeds `scoring.py::_contains_any`: `any(n in haystack for n in needles)`. -/
def _contains_any (haystack : String) (needles : List String) : Bool :=
  needles.any (fun n => inStr n haystack)

/-- Lower-case every character (embeds Python `str.lower` for the ASCII
texts the scorer handles). -/
def lowerStr (s : String) : String :=
  String.mk (s.data.map Char.toLower)

/-- Python `str.strip()` on a char list: drop leading and trailing
whitespace. -/
def trimL (cs : List Char) : List Char :=
  ((cs.dropWhile Char.isWhitespace).reverse.dropWhile Char.isWhitespace).reverse

/-- Embeds `scoring.py::_norm`: `(s or "").strip().lower()`. -/
def _norm (s : String) : String :=
  lowerStr (String.mk (trimL s.data))

/-- Embeds `scoring.py::SENIOR_TITLE_EXCLUDES`. -/
def SENIOR_TITLE_EXCLUDES : List String :=
  ["senior", "lead", "manager", "principal", "head", "director", "vp",
   "vice president", "chief", "c-level", "partner"]

/-- Embeds `scoring.py::STRONG_POSITIVE_TITLE`. -/
def STRONG_POSITIVE_TITLE : List String :=
  ["graduate", "junior", "trainee", "assistant", "coordinator",
   "administrator", "admin", "apprentice", "intern", "placement"]

/-- Embeds `scoring.py::STEALTH_JUNIOR_TITLE`. -/
def STEALTH_JUNIOR_TITLE : List String :=
  ["analyst", "officer", "executive", "associate"]

/-- Embeds `scoring.py::STRONG_POSITIVE_TEXT`. -/
def STRONG_POSITIVE_TEXT : List String :=
  ["entry level", "entry-level", "early career", "recent graduates",
   "new graduate", "graduate programme", "graduate program"]

/-- Embeds `scoring.py::INTERNSHIP_EQUIVALENT_TEXT`. -/
def INTERNSHIP_EQUIVALENT_TEXT : List String :=
  ["internship", "industrial placement", "placement year",
   "part-time", "part time", "volunteer", "volunteering",
   "university project", "capstone", "student society", "society",
   "dissertation", "coursework", "or equivalent experience"]

/-- Embeds `scoring.py::SENIOR_LANGUAGE_EXCLUDES`. -/
def SENIOR_LANGUAGE_EXCLUDES : List String :=
  ["extensive experience", "significant experience", "expert",
   "seasoned", "own the strategy", "set strategy", "define strategy",
   "strategic ownership", "lead a team", "line manage", "people management"]

/-- The training/development phrase list inlined at `scoring.py:168`. -/
def TRAINING_TEXT : List String :=
  ["training provided", "full training", "we will train",
   "learning and development", "development opportunity"]

/-- Positive responsibility verbs, `scoring.py:206`. -/
def POSITIVE_VERBS : List String :=
  ["assist", "support", "coordinate", "help", "learn", "shadow",
   "contribute", "maintain"]

/-- Negative responsibility verbs, `scoring.py:207`. -/
def NEGATIVE_VERBS : List String :=
  ["lead", "own", "drive strategy", "set strategy", "define roadmap",
   "manage a team", "line manage"]

/-- Embeds `scoring.py::ScoringResult`.  Python floats become `Rat`. -/
structure ScoringResult where
  bucket : String
  score : Int
  reasons : List String
  exclude_reason : Option String := none
  parsed_years_min : Option Rat := none
  parsed_years_max : Option Rat := none
deriving Repr, DecidableEq

/-- Regex `\s` restricted to the ASCII whitespace the inputs contain. -/
def isSpaceChar (c : Char) : Bool :=
  c == ' ' || c == '\t' || c == '\n' || c == '\r'

/-- Digit run to `Nat`, most significant first. -/
def digitsToNat (ds : List Char) : Nat :=
  ds.foldl (fun a c => a * 10 + (c.toNat - 48)) 0

/-- Regex `\d+(?:\.\d+)?` at the head of the input, returning the parsed
value (as an exact rational) and the remainder.  Greedy digit runs need no
backtracking in the patterns below, since what follows a number is never a
digit or a dot. -/
def parseNumber (cs : List Char) : Option (Rat × List Char) :=
  let ds := cs.takeWhile (·.isDigit)
  let rest := cs.dropWhile (·.isDigit)
  if ds.isEmpty then none
  else
    let ip : Rat := mkRat (digitsToNat ds) 1
    match rest with
    | '.' :: rest2 =>
      let fs := rest2.takeWhile (·.isDigit)
      let rest3 := rest2.dropWhile (·.isDigit)
      if fs.isEmpty then some (ip, rest)
      else
        some (mkRat (digitsToNat ds * 10 ^ fs.length + digitsToNat fs) (10 ^ fs.length),
              rest3)
    | _ => some (ip, rest)

/-- Fractional decimal digits of the proper fraction `rn / den`, trailing
zeros trimmed by the `rn = 0` stop, up to `fuel` digits (long division in
`Nat`). -/
def fracDigits : Nat → Nat → Nat → List Char
  | 0, _, _ => []
  | fuel + 1, rn, den =>
    if rn = 0 then []
    else
      let d := rn * 10 / den
      Char.ofNat (48 + d) :: fracDigits fuel (rn * 10 % den) den

/-- Decimal digits of a `Nat` (fuelled; `n + 1` fuel always suffices). -/
def natToCharsAux : Nat → Nat → List Char → List Char
  | 0, _, acc => acc
  | fuel + 1, n, acc =>
    if n < 10 then Char.ofNat (48 + n) :: acc
    else natToCharsAux fuel (n / 10) (Char.ofNat (48 + n % 10) :: acc)

/-- Decimal rendering of a `Nat`. -/
def natToStr (n : Nat) : String :=
  String.mk (natToCharsAux (n + 1) n [])

/-- Models the Python `"%g"` float formatting for the small exact decimals the
years extractor produces: integer part, then fractional digits with
trailing zeros dropped. -/
def fmtG (q : Rat) : String :=
  let sign := if q.num < 0 then "-" else ""
  let n := q.num.natAbs
  let ipn := n / q.den
  let ds := fracDigits 6 (n % q.den) q.den
  sign ++ natToStr ipn ++ (if ds.isEmpty then "" else "." ++ String.mk ds)

/-- Match of `range_pat` = `(\d+(?:\.\d+)?)\s*(?:-|–|to)\s*(\d+(?:\.\d+)?)\s*(?:\+?\s*)?years?`
anchored at the head of the input. -/
def matchRangeAt (cs : List Char) : Option (Rat × Rat) :=
  match parseNumber cs with
  | none => none
  | some (v1, r1) =>
    let r2 := r1.dropWhile isSpaceChar
    let sep : Option (List Char) :=
      match r2 with
      | '-' :: rest => some rest
      | '–' :: rest => some rest
      | 't' :: 'o' :: rest => some rest
      | _ => none
    match sep with
    | none => none
    | some r3 =>
      let r4 := r3.dropWhile isSpaceChar
      match parseNumber r4 with
      | none => none
      | some (v2, r5) =>
        let r6 := r5.dropWhile isSpaceChar
        let r7 :=
          match r6 with
          | '+' :: rest => rest.dropWhile isSpaceChar
          | _ => r6
        if startsWithL ['y', 'e', 'a', 'r'] r7 then some (v1, v2) else none

/-- Match of `upto_pat` = `up to\s*(\d+(?:\.\d+)?)\s*years?` anchored at the
head of the input. -/
def matchUptoAt (cs : List Char) : Option Rat :=
  if startsWithL ['u', 'p', ' ', 't', 'o'] cs then
    let r1 := (cs.drop 5).dropWhile isSpaceChar
    match parseNumber r1 with
    | none => none
    | some (v, r2) =>
      let r3 := r2.dropWhile isSpaceChar
      if startsWithL ['y', 'e', 'a', 'r'] r3 then some v else none
  else none

/-- Match of `plus_pat` = `(\d+(?:\.\d+)?)\s*\+\s*years?` anchored at the
head of the input. -/
def matchPlusAt (cs : List Char) : Option Rat :=
  match parseNumber cs with
  | none => none
  | some (v, r1) =>
    match r1.dropWhile isSpaceChar with
    | '+' :: r2 =>
      let r3 := r2.dropWhile isSpaceChar
      if startsWithL ['y', 'e', 'a', 'r'] r3 then some v else none
    | _ => none

/-- Match of `atleast_pat` = `(?:at least|min(?:imum)?(?: of)?)\s*(\d+(?:\.\d+)?)\s*years?`
anchored at the head of the input. -/
def matchAtLeastAt (cs : List Char) : Option Rat :=
  let afterKey : Option (List Char) :=
    if startsWithL ['a', 't', ' ', 'l', 'e', 'a', 's', 't'] cs then
      some (cs.drop 8)
    else if startsWithL ['m', 'i', 'n'] cs then
      let r1 := cs.drop 3
      let r2 := if startsWithL ['i', 'm', 'u', 'm'] r1 then r1.drop 4 else r1
      let r3 := if startsWithL [' ', 'o', 'f'] r2 then r2.drop 3 else r2
      some r3
    else none
  match afterKey with
  | none => none
  | some r3 =>
    let r4 := r3.dropWhile isSpaceChar
    match parseNumber r4 with
    | none => none
    | some (v, r5) =>
      let r6 := r5.dropWhile isSpaceChar
      if startsWithL ['y', 'e', 'a', 'r'] r6 then some v else none

/-- Embeds `re.search` for an anchored matcher `f`: try each start position left to
right, first success wins. -/
def searchL {α : Type} (f : List Char → Option α) : List Char → Option α
  | [] => f []
  | c :: tl =>
    match f (c :: tl) with
    | some v => some v
    | none => searchL f tl

/-- Embeds `scoring.py::_extract_years`: try the four patterns in priority order
(range, "up to", "N+", "at least/minimum"), apply only the first that
matches anywhere in the text.  The `lowerStr` models the `re.I` flag. -/
def _extract_years (text : String) : Option Rat × Option Rat × List String :=
  let t := (lowerStr text).data
  match searchL matchRangeAt t with
  | some (mn, mx) =>
    (some mn, some mx, ["Years range: " ++ fmtG mn ++ "-" ++ fmtG mx])
  | none =>
    match searchL matchUptoAt t with
    | some mx => (some 0, some mx, ["Years: up to " ++ fmtG mx])
    | none =>
      match searchL matchPlusAt t with
      | some mn => (some mn, none, ["Years: " ++ fmtG mn ++ "+"])
      | none =>
        match searchL matchAtLeastAt t with
        | some mn => (some mn, none, ["Years: at least " ++ fmtG mn])
        | none => (none, none, [])

/-- Strong junior-title bonus, `scoring.py:154-156`. -/
def title_strong_rule (t : String) : Int × List String :=
  if _contains_any t STRONG_POSITIVE_TITLE then (2, ["Strong junior title signal"])
  else (0, [])

/-- Stealth junior-title bonus, `scoring.py:159-161`. -/
def stealth_title_rule (t : String) : Int × List String :=
  if _contains_any t STEALTH_JUNIOR_TITLE then (1, ["Stealth junior title (needs evidence)"])
  else (0, [])

/-- Entry-level text bonus, `scoring.py:164-166`. -/
def entry_text_rule (d : String) : Int × List String :=
  if _contains_any d STRONG_POSITIVE_TEXT then (2, ["Explicit entry-level / graduate language"])
  else (0, [])

/-- Training/development text bonus, `scoring.py:168-170`. -/
def training_rule (d : String) : Int × List String :=
  if _contains_any d TRAINING_TEXT then (1, ["Training/development language"])
  else (0, [])

/-- Internship-equivalence bonus, `scoring.py:173-176`; the flag is the
already-computed `internship_equiv`. -/
def internship_rule (internship_equiv : Bool) : Int × List String :=
  if internship_equiv then (2, ["Internship/part-time/uni-project experience accepted"])
  else (0, [])

/-- Years rule a (`scoring.py:181-183`): max present and ≤ 2. -/
def years_rule_a (ymax : Option Rat) : Int × List String :=
  match ymax with
  | some mx => if mx ≤ 2 then (2, ["Experience requirement within 0–2 years"]) else (0, [])
  | none => (0, [])

/-- Years rule b (`scoring.py:186-188`): min present, ≤ 2, and max absent
or ≤ 2. -/
def years_rule_b (ymin ymax : Option Rat) : Int × List String :=
  match ymin, ymax with
  | some mn, none => if mn ≤ 2 then (1, ["Low minimum experience (<=2 years)"]) else (0, [])
  | some mn, some mx =>
    if mn ≤ 2 ∧ mx ≤ 2 then (1, ["Low minimum experience (<=2 years)"]) else (0, [])
  | none, _ => (0, [])

/-- Years rule c (`scoring.py:191-194`): min exactly 2, max absent. -/
def years_rule_c (ymin ymax : Option Rat) (internship_equiv : Bool) : Int × List String :=
  match ymin, ymax with
  | some mn, none =>
    if mn = 2 then ((if internship_equiv then 0 else -1), ["Borderline: 2+ years"])
    else (0, [])
  | _, _ => (0, [])

/-- Years rule d (`scoring.py:197-199`): min in [3, 5). -/
def years_rule_d (ymin : Option Rat) : Int × List String :=
  match ymin with
  | some mn => if 3 ≤ mn ∧ mn < 5 then (-3, ["Likely mid-level: 3+ years"]) else (0, [])
  | none => (0, [])

/-- The whole years-based scoring block, `scoring.py:179-203`: the four
rules fire independently when any figure was parsed; otherwise a note is
logged with no score change. -/
def years_rules (ymin ymax : Option Rat) (internship_equiv : Bool) : Int × List String :=
  if ymin.isSome || ymax.isSome then
    let a := years_rule_a ymax
    let b := years_rule_b ymin ymax
    let c := years_rule_c ymin ymax internship_equiv
    let d := years_rule_d ymin
    (a.1 + b.1 + c.1 + d.1, a.2 ++ b.2 ++ c.2 ++ d.2)
  else (0, ["No explicit years found"])

/-- Responsibility-verb heuristic, `scoring.py:205-216`. -/
def verbs_rule (d : String) : Int × List String :=
  let p : Int × List String :=
    if 2 ≤ POSITIVE_VERBS.countP (fun v => inStr v d) then
      (1, ["Responsibilities look support/co-ordination focused"])
    else (0, [])
  let n : Int × List String :=
    if 1 ≤ NEGATIVE_VERBS.countP (fun v => inStr v d) then
      (-2, ["Responsibilities include ownership/leadership language"])
    else (0, [])
  (p.1 + n.1, p.2 ++ n.2)

/-- Embeds `strong_positive`, `scoring.py:220-225`. -/
def strong_positive (t d : String) (ymax : Option Rat) (internship_equiv : Bool) : Bool :=
  _contains_any t STRONG_POSITIVE_TITLE
    || _contains_any d STRONG_POSITIVE_TEXT
    || (match ymax with | some mx => decide (mx ≤ 2) | none => false)
    || internship_equiv

/-- The hard-exclude test of `scoring.py:143`: parsed min present and ≥ 5. -/
def min_ge_5 (ymin : Option Rat) : Bool :=
  match ymin with
  | some mn => decide (5 ≤ mn)
  | none => false

/-- Embeds `scoring.py::score_grad_suitability`.  The sequential `score +=` /
`reasons.append` updates of the source are rendered as the sum of the
per-rule deltas and the concatenation of the per-rule reason lists, in
source order. -/
def score_grad_suitability (title : String) (description : String := "")
    (department : String := "") (seniority : String := "") : ScoringResult :=
  let t := _norm title
  let d := _norm description
  let dep := _norm department
  let lvl := _norm seniority
  if _contains_any t SENIOR_TITLE_EXCLUDES || _contains_any lvl SENIOR_TITLE_EXCLUDES then
    { bucket := "EXCLUDE", score := -999, reasons := [],
      exclude_reason := some "Senior title/level keyword" }
  else if _contains_any d SENIOR_LANGUAGE_EXCLUDES then
    { bucket := "EXCLUDE", score := -999, reasons := [],
      exclude_reason := some "Senior language in description" }
  else
    let ys := _extract_years d
    let ymin := ys.1
    let ymax := ys.2.1
    let reasons0 := ys.2.2
    if min_ge_5 ymin then
      { bucket := "EXCLUDE", score := -999, reasons := reasons0,
        exclude_reason := some "Minimum experience 5+ years",
        parsed_years_min := ymin, parsed_years_max := ymax }
    else
      let internship_equiv := _contains_any d INTERNSHIP_EQUIVALENT_TEXT
      let r1 := title_strong_rule t
      let r2 := stealth_title_rule t
      let r3 := entry_text_rule d
      let r4 := training_rule d
      let r5 := internship_rule internship_equiv
      let r6 := years_rules ymin ymax internship_equiv
      let r7 := verbs_rule d
      let score := r1.1 + r2.1 + r3.1 + r4.1 + r5.1 + r6.1 + r7.1
      let reasons := reasons0 ++ r1.2 ++ r2.2 ++ r3.2 ++ r4.2 ++ r5.2 ++ r6.2 ++ r7.2
      let sp := strong_positive t d ymax internship_equiv
      let bucket :=
        if 4 ≤ score ∧ sp = true then "HIGH_CERTAINTY"
        else if 2 ≤ score then "LESS_CERTAIN"
        else "LESS_CERTAIN"
      { bucket := bucket, score := score, reasons := reasons,
        exclude_reason := none, parsed_years_min := ymin, parsed_years_max := ymax }

/-- C1: whenever the normalized title or normalized seniority contains a
senior-role keyword, the scorer returns `EXCLUDE` with reason
"Senior title/level keyword", score `-999`, and an empty reasons list,
regardless of the description and department. -/
theorem C1_senior_title_hard_exclude (title description department seniority : String)
    (h : _contains_any (_norm title) SENIOR_TITLE_EXCLUDES = true ∨
         _contains_any (_norm seniority) SENIOR_TITLE_EXCLUDES = true) :
    score_grad_suitability title description department seniority =
      { bucket := "EXCLUDE", score := -999, reasons := [],
        exclude_reason := some "Senior title/level keyword" } := by
  unfold score_grad_suitability
  rcases h with h | h <;> simp [h]

/-- C1 witness: concrete senior title. -/
theorem C1_witness :
    (_contains_any (_norm "Senior Engineer") SENIOR_TITLE_EXCLUDES = true ∨
     _contains_any (_norm "") SENIOR_TITLE_EXCLUDES = true) ∧
    score_grad_suitability "Senior Engineer" "a fine entry level job" "Ops" "" =
      { bucket := "EXCLUDE", score := -999, reasons := [],
        exclude_reason := some "Senior title/level keyword" } :=
  ⟨Or.inl (by decide),
   C1_senior_title_hard_exclude "Senior Engineer" "a fine entry level job" "Ops" ""
     (Or.inl (by decide))⟩

/-- C6: when the normalized description contains a senior-language phrase
while title and seniority contain no senior keyword, the scorer returns
`EXCLUDE` with reason "Senior language in description". -/
theorem C6_senior_language_hard_exclude (title description department seniority : String)
    (h1 : _contains_any (_norm title) SENIOR_TITLE_EXCLUDES = false)
    (h2 : _contains_any (_norm seniority) SENIOR_TITLE_EXCLUDES = false)
    (h3 : _contains_any (_norm description) SENIOR_LANGUAGE_EXCLUDES = true) :
    score_grad_suitability title description department seniority =
      { bucket := "EXCLUDE", score := -999, reasons := [],
        exclude_reason := some "Senior language in description" } := by
  unfold score_grad_suitability
  simp [h1, h2, h3]

/-- C6 witness: concrete senior-language description with junior title. -/
theorem C6_witness :
    _contains_any (_norm "Engineer") SENIOR_TITLE_EXCLUDES = false ∧
    _contains_any (_norm "") SENIOR_TITLE_EXCLUDES = false ∧
    _contains_any (_norm "seasoned professional wanted") SENIOR_LANGUAGE_EXCLUDES = true ∧
    score_grad_suitability "Engineer" "seasoned professional wanted" "" "" =
      { bucket := "EXCLUDE", score := -999, reasons := [],
        exclude_reason := some "Senior language in description" } :=
  ⟨by decide, by decide, by decide,
   C6_senior_language_hard_exclude "Engineer" "seasoned professional wanted" "" ""
     (by decide) (by decide) (by decide)⟩

/-- C7: the flagship spec scenario: "Graduate Analyst" with an
entry-level description parses years (0, 2), triggers no hard exclude,
scores at least 10 (in fact 11: the individual rule contributions named in
the claim each fire), has a strong positive signal, and lands in
`HIGH_CERTAINTY`. -/
theorem C7_graduate_analyst_scenario :
    score_grad_suitability "Graduate Analyst"
        "Entry-level role, training provided, internship experience welcome, 0-2 years"
        "Operations" "" =
      { bucket := "HIGH_CERTAINTY", score := 11,
        reasons := ["Years range: 0-2", "Strong junior title signal",
                    "Stealth junior title (needs evidence)",
                    "Explicit entry-level / graduate language",
                    "Training/development language",
                    "Internship/part-time/uni-project experience accepted",
                    "Experience requirement within 0–2 years",
                    "Low minimum experience (<=2 years)"],
        exclude_reason := none, parsed_years_min := some 0,
        parsed_years_max := some 2 } ∧
    (title_strong_rule (_norm "Graduate Analyst")).1 = 2 ∧
    (entry_text_rule (_norm "Entry-level role, training provided, internship experience welcome, 0-2 years")).1 = 2 ∧
    (training_rule (_norm "Entry-level role, training provided, internship experience welcome, 0-2 years")).1 = 1 ∧
    (internship_rule true).1 = 2 ∧
    (years_rule_a (some 2)).1 = 2 ∧
    (years_rule_b (some 0) (some 2)).1 = 1 ∧
    strong_positive (_norm "Graduate Analyst")
      (_norm "Entry-level role, training provided, internship experience welcome, 0-2 years")
      (some 2) true = true := by
  decide

/-- C10: the department argument is normalized but never read afterwards:
two inputs differing only in department yield identical results. -/
theorem C10_department_noninterference (title description seniority dep1 dep2 : String) :
    score_grad_suitability title description dep1 seniority =
    score_grad_suitability title description dep2 seniority := rfl

/-- C10 witness: concrete instantiation at two distinct departments. -/
theorem C10_witness :
    score_grad_suitability "Graduate Analyst" "entry level" "Sales" "" =
    score_grad_suitability "Graduate Analyst" "entry level" "Engineering" "" :=
  C10_department_noninterference "Graduate Analyst" "entry level" "" "Sales" "Engineering"

/-- C9: with parsed min exactly 2 and no parsed max, borderline rule c
contributes +0 when an internship-equivalent phrase is present and −1
otherwise, and it fires in addition to low-minimum rule b (+1): the years
rules are additive, as the combined years block and a concrete
non-excluded run ("2+ years" description) both show. -/
theorem C9_borderline_additive (internship_equiv : Bool) :
    years_rule_c (some 2) none internship_equiv =
      ((if internship_equiv then 0 else -1), ["Borderline: 2+ years"]) ∧
    years_rule_b (some 2) none = (1, ["Low minimum experience (<=2 years)"]) ∧
    years_rules (some 2) none internship_equiv =
      ((if internship_equiv then 1 else 0 : Int),
       ["Low minimum experience (<=2 years)", "Borderline: 2+ years"]) ∧
    (score_grad_suitability "Operations Associate"
        "2+ years experience preferred, help the team" "" "").reasons =
      ["Years: 2+", "Stealth junior title (needs evidence)",
       "Low minimum experience (<=2 years)", "Borderline: 2+ years"] := by
  cases internship_equiv <;> decide

/-- C9 witness: the borderline rule at a concrete flag value. -/
theorem C9_witness :
    years_rule_c (some 2) none false = (-1, ["Borderline: 2+ years"]) :=
  (C9_borderline_additive false).1

/-- C2: exclude_reason is present iff bucket = EXCLUDE; an EXCLUDE result
carries the sentinel score −999 and an empty reasons list, except that the
years-based exclude keeps the years-evidence reasons gathered before the
check. -/
theorem C2_exclude_invariant (title description department seniority : String)
    (r : ScoringResult)
    (hr : r = score_grad_suitability title description department seniority) :
    (r.exclude_reason.isSome ↔ r.bucket = "EXCLUDE") ∧
    (r.bucket = "EXCLUDE" → r.score = -999 ∧
      (r.reasons = [] ∨
        (r.exclude_reason = some "Minimum experience 5+ years" ∧
         r.reasons = (_extract_years (_norm description)).2.2))) := by
  subst hr
  simp only [score_grad_suitability]
  split
  · simp
  · split
    · simp
    · split
      · simp
      · constructor
        · split <;> simp
        · split <;> simp

/-- C2 witness: the invariant at a concrete years-excluded input. -/
theorem C2_witness :
    ((score_grad_suitability "Intern" "at least 7 years" "" "").exclude_reason.isSome ↔
      (score_grad_suitability "Intern" "at least 7 years" "" "").bucket = "EXCLUDE") ∧
    ((score_grad_suitability "Intern" "at least 7 years" "" "").bucket = "EXCLUDE" →
      (score_grad_suitability "Intern" "at least 7 years" "" "").score = -999 ∧
      ((score_grad_suitability "Intern" "at least 7 years" "" "").reasons = [] ∨
        ((score_grad_suitability "Intern" "at least 7 years" "" "").exclude_reason =
           some "Minimum experience 5+ years" ∧
         (score_grad_suitability "Intern" "at least 7 years" "" "").reasons =
           (_extract_years (_norm "at least 7 years")).2.2))) :=
  C2_exclude_invariant "Intern" "at least 7 years" "" ""
    (score_grad_suitability "Intern" "at least 7 years" "" "") rfl

/-- C3 (amended): when neither the title/seniority nor the
description-language hard exclude fires and the years extractor parses a
minimum ≥ 5, the scorer returns EXCLUDE with reason
"Minimum experience 5+ years", carrying the parsed figures and the
years-evidence reasons.  (The parenthetical claim instances of plain
"5 years" / "6 years" do not hold: no extractor pattern matches a bare
"N years", so such descriptions parse no minimum; see the
counterexample.) -/
theorem C3_min_years_exclude (title description department seniority : String) (m : Rat)
    (h1 : _contains_any (_norm title) SENIOR_TITLE_EXCLUDES = false)
    (h2 : _contains_any (_norm seniority) SENIOR_TITLE_EXCLUDES = false)
    (h3 : _contains_any (_norm description) SENIOR_LANGUAGE_EXCLUDES = false)
    (hm : (_extract_years (_norm description)).1 = some m)
    (h5 : 5 ≤ m) :
    score_grad_suitability title description department seniority =
      { bucket := "EXCLUDE", score := -999,
        reasons := (_extract_years (_norm description)).2.2,
        exclude_reason := some "Minimum experience 5+ years",
        parsed_years_min := some m,
        parsed_years_max := (_extract_years (_norm description)).2.1 } := by
  have hge : min_ge_5 (some m) = true := decide_eq_true h5
  simp only [score_grad_suitability]
  simp [h1, h2, h3, hm, hge]

/-- C3 counterexample: a description containing plain "5 years" (with no
range, "+", or "minimum" marker) parses no years figure and is not
excluded, contradicting the stated "including plain 5 years" instance. -/
theorem C3_counterexample :
    inStr "5 years" (_norm "requires 5 years of relevant experience") = true ∧
    _contains_any (_norm "Programme Analyst") SENIOR_TITLE_EXCLUDES = false ∧
    _contains_any (_norm "requires 5 years of relevant experience")
      SENIOR_LANGUAGE_EXCLUDES = false ∧
    (_extract_years (_norm "requires 5 years of relevant experience")).1 = none ∧
    (score_grad_suitability "Programme Analyst"
      "requires 5 years of relevant experience" "" "").bucket = "LESS_CERTAIN" ∧
    (score_grad_suitability "Programme Analyst"
      "requires 5 years of relevant experience" "" "").exclude_reason = none := by
  decide

/-- C3 witness: a "minimum of 6 years" description is years-excluded. -/
theorem C3_witness :
    (_extract_years (_norm "minimum of 6 years")).1 = some 6 ∧
    score_grad_suitability "Analyst" "minimum of 6 years" "" "" =
      { bucket := "EXCLUDE", score := -999,
        reasons := (_extract_years (_norm "minimum of 6 years")).2.2,
        exclude_reason := some "Minimum experience 5+ years",
        parsed_years_min := some 6,
        parsed_years_max := (_extract_years (_norm "minimum of 6 years")).2.1 } :=
  ⟨by decide,
   C3_min_years_exclude "Analyst" "minimum of 6 years" "" "" 6
     (by decide) (by decide) (by decide) (by decide) (by decide)⟩

/-- The bucketing step of the source (`scoring.py:227-232`) in isolation: the
two `LESS_CERTAIN` branches collapse, and `HIGH_CERTAINTY` is hit exactly
on `score ≥ 4` with a strong positive signal. -/
theorem bucket_eq (score : Int) (sp : Bool) :
    let b := if 4 ≤ score ∧ sp = true then "HIGH_CERTAINTY"
             else if 2 ≤ score then "LESS_CERTAIN" else "LESS_CERTAIN"
    (b = "HIGH_CERTAINTY" ∨ b = "LESS_CERTAIN") ∧
    (b = "HIGH_CERTAINTY" ↔ (4 ≤ score ∧ sp = true)) := by
  dsimp only
  split
  · rename_i h
    exact ⟨Or.inl rfl, iff_of_true rfl h⟩
  · rename_i h
    split
    · exact ⟨Or.inr rfl, iff_of_false (by decide) h⟩
    · exact ⟨Or.inr rfl, iff_of_false (by decide) h⟩

/-- C4: with no hard exclude triggered, the bucket is HIGH_CERTAINTY
exactly when the accumulated score is ≥ 4 and a strong-positive condition
holds, and LESS_CERTAIN in every other case — never EXCLUDE, however low
the score. -/
theorem C4_bucketing (title description department seniority : String)
    (h1 : _contains_any (_norm title) SENIOR_TITLE_EXCLUDES = false)
    (h2 : _contains_any (_norm seniority) SENIOR_TITLE_EXCLUDES = false)
    (h3 : _contains_any (_norm description) SENIOR_LANGUAGE_EXCLUDES = false)
    (h4 : min_ge_5 (_extract_years (_norm description)).1 = false) :
    let r := score_grad_suitability title description department seniority
    (r.bucket = "HIGH_CERTAINTY" ∨ r.bucket = "LESS_CERTAIN") ∧
    (r.bucket = "HIGH_CERTAINTY" ↔
      (4 ≤ r.score ∧
       strong_positive (_norm title) (_norm description)
         (_extract_years (_norm description)).2.1
         (_contains_any (_norm description) INTERNSHIP_EQUIVALENT_TEXT) = true)) := by
  simp only [score_grad_suitability]
  simp only [h1, h2, h3, h4, Bool.or_self, Bool.false_eq_true, if_false]
  exact bucket_eq _ _

/-- C4 witness: bucketing at a concrete non-excluded input. -/
theorem C4_witness :
    _contains_any (_norm "Trainee Accountant") SENIOR_TITLE_EXCLUDES = false ∧
    _contains_any (_norm "") SENIOR_TITLE_EXCLUDES = false ∧
    _contains_any (_norm "entry level role, up to 2 years")
      SENIOR_LANGUAGE_EXCLUDES = false ∧
    min_ge_5 (_extract_years (_norm "entry level role, up to 2 years")).1 = false ∧
    ((score_grad_suitability "Trainee Accountant"
        "entry level role, up to 2 years" "" "").bucket = "HIGH_CERTAINTY" ∨
     (score_grad_suitability "Trainee Accountant"
        "entry level role, up to 2 years" "" "").bucket = "LESS_CERTAIN") :=
  ⟨by decide, by decide, by decide, by decide,
   (C4_bucketing "Trainee Accountant" "entry level role, up to 2 years" "" ""
     (by decide) (by decide) (by decide) (by decide)).1⟩

/-- C5: the years extractor applies its patterns in a fixed priority order
— range, "up to N", "N+", "at least/minimum N" — and only the first
pattern that matches anywhere in the text is applied; in particular
"1-2 years, minimum of 3 years" parses as range (1, 2) even though the
"minimum of" pattern also matches that text. -/
theorem C5_pattern_priority :
    (∀ text : String, ∀ p : Rat × Rat,
      searchL matchRangeAt (lowerStr text).data = some p →
      _extract_years text =
        (some p.1, some p.2,
         ["Years range: " ++ fmtG p.1 ++ "-" ++ fmtG p.2])) ∧
    (∀ text : String, ∀ mx : Rat,
      searchL matchRangeAt (lowerStr text).data = none →
      searchL matchUptoAt (lowerStr text).data = some mx →
      _extract_years text = (some 0, some mx, ["Years: up to " ++ fmtG mx])) ∧
    (∀ text : String, ∀ mn : Rat,
      searchL matchRangeAt (lowerStr text).data = none →
      searchL matchUptoAt (lowerStr text).data = none →
      searchL matchPlusAt (lowerStr text).data = some mn →
      _extract_years text = (some mn, none, ["Years: " ++ fmtG mn ++ "+"])) ∧
    (∀ text : String, ∀ mn : Rat,
      searchL matchRangeAt (lowerStr text).data = none →
      searchL matchUptoAt (lowerStr text).data = none →
      searchL matchPlusAt (lowerStr text).data = none →
      searchL matchAtLeastAt (lowerStr text).data = some mn →
      _extract_years text = (some mn, none, ["Years: at least " ++ fmtG mn])) ∧
    _extract_years "1-2 years, minimum of 3 years" =
      (some 1, some 2, ["Years range: 1-2"]) ∧
    (searchL matchAtLeastAt
      (lowerStr "1-2 years, minimum of 3 years").data).isSome = true := by
  refine ⟨?_, ?_, ?_, ?_, by decide, by decide⟩
  · intro text p h
    obtain ⟨mn, mx⟩ := p
    simp only [_extract_years]
    rw [h]
  · intro text mx h0 h
    simp only [_extract_years]
    rw [h0, h]
  · intro text mn h0 h1 h
    simp only [_extract_years]
    rw [h0, h1, h]
  · intro text mn h0 h1 h2 h
    simp only [_extract_years]
    rw [h0, h1, h2, h]

/-- C5 witness: the range tier applied at a concrete text. -/
theorem C5_witness :
    searchL matchRangeAt (lowerStr "0-1 years").data = some ((0 : Rat), (1 : Rat)) ∧
    _extract_years "0-1 years" =
      (some (0 : Rat), some (1 : Rat),
       ["Years range: " ++ fmtG 0 ++ "-" ++ fmtG 1]) :=
  ⟨by decide, C5_pattern_priority.1 "0-1 years" (0, 1) (by decide)⟩

/-- C8: a parsed minimum in [3, 5) — in particular exactly 3 — fires the
−3 mid-level penalty (rule d) and does not meet the hard-exclude test,
while a parsed minimum of exactly 5 forces bucket = EXCLUDE on every
input, whatever the other fields contain. -/
theorem C8_years_boundary :
    (∀ mn : Rat, 3 ≤ mn → mn < 5 →
      years_rule_d (some mn) = (-3, ["Likely mid-level: 3+ years"]) ∧
      min_ge_5 (some mn) = false) ∧
    (∀ title description department seniority : String,
      (_extract_years (_norm description)).1 = some 5 →
      (score_grad_suitability title description department seniority).bucket =
        "EXCLUDE" ∧
      (score_grad_suitability title description department seniority).score =
        -999) := by
  constructor
  · intro mn h3 h5
    refine ⟨?_, ?_⟩
    · simp [years_rule_d, h3, h5]
    · exact decide_eq_false (not_le.mpr h5)
  · intro title description department seniority hm
    have hge : min_ge_5 (_extract_years (_norm description)).1 = true := by
      rw [hm]; decide
    simp only [score_grad_suitability]
    split
    · simp
    · split
      · simp
      · simp [hge]

/-- C8 witness: min exactly 3 is penalized but not excluded; a concrete
"minimum of 5 years" posting is excluded. -/
theorem C8_witness :
    ((3 : Rat) ≤ 3 ∧ (3 : Rat) < 5 ∧
     years_rule_d (some 3) = (-3, ["Likely mid-level: 3+ years"]) ∧
     min_ge_5 (some 3) = false) ∧
    ((_extract_years (_norm "minimum of 5 years")).1 = some 5 ∧
     (score_grad_suitability "Clerk" "minimum of 5 years" "" "").bucket =
       "EXCLUDE") :=
  ⟨⟨by decide, by decide,
    (C8_years_boundary.1 3 (by decide) (by decide)).1,
    (C8_years_boundary.1 3 (by decide) (by decide)).2⟩,
   ⟨by decide,
    (C8_years_boundary.2 "Clerk" "minimum of 5 years" "" "" (by decide)).1⟩⟩
